import Mathlib

/-!
Verification of the huskyTech2 bootstrap (`src/huskyTech2/huskyTech2/main.cpp`).

The program is a single translation unit: two global variables (`window`,
`alive`, declared in `globals.h`), an input poller `input_update`, an empty
render hook `draw`, a teardown function `explode`, and `main`, which
initializes GLFW, creates a window, initializes GLEW and runs the frame loop.

We embed the program shallowly: the global state is a `Globals` record, the
outside world (whether `glfwInit` / `glfwCreateWindow` / `glewInit` succeed,
and what `glfwGetKey` / `glfwWindowShouldClose` report at each poll) is an
`Env` record, and every externally observable call is recorded as an `Event`
in a trace.  The frame loop is given explicit fuel; a run that exhausts its
fuel without exiting returns `none` for the process exit code, modelling
divergence.
-/

/-- Observable effects of the program: each constructor is one call into the
windowing / loader libraries or to `fprintf(stderr, ...)`. -/
inductive Event where
  | setGlewExperimental : Event
  | glfwInitCall : Event
  | printErr : String → Event
  | windowHint : String → String → Event
  | createWindow : Nat → Nat → String → Event
  | makeContextCurrent : Event
  | glewInitCall : Event
  | setInputMode : String → String → Event
  | inputUpdateCall : Event
  | drawCall : Event
  | destroyWindow : Event
  | terminate : Event
  deriving DecidableEq, Repr

/-- The two globals of `globals.h`: `GLFWwindow* window` and `bool alive`.
The window handle is opaque; we model it as `Option Nat` (`none` = `NULL`). -/
structure Globals where
  alive : Bool
  window : Option Nat
  deriving DecidableEq, Repr

/-- Modelled from the spec: `globals.h` is not part of the given sources; the
spec states the Alive flag is "process-wide boolean state, initialized true"
and the window handle is created at startup, so the globals start with
`alive = true` and no window yet. -/
def initialGlobals : Globals := { alive := true, window := none }

/-- What one poll of the input devices observes: the first component is
whether `glfwGetKey(window, GLFW_KEY_ESCAPE)` returns `GLFW_PRESS`, the
second whether `glfwWindowShouldClose(window)` returns non-zero. -/
abbrev Input := Bool × Bool

/-- The exit condition tested by `input_update`:
`glfwGetKey(window, GLFW_KEY_ESCAPE) == GLFW_PRESS || glfwWindowShouldClose(window) != 0`. -/
def pollExit (inp : Input) : Bool := inp.1 || inp.2

/-- `input_update` from `main.cpp`: if the Escape key is pressed or the
window system signaled close, set `alive = false`; otherwise do nothing. -/
def input_update (inp : Input) (g : Globals) : Globals :=
  if pollExit inp then { g with alive := false } else g

/-- `draw` from `main.cpp`: the render hook has an empty body, so it leaves
the globals unchanged; we record only the invocation event. -/
def draw (g : Globals) : Globals := g

/-- `explode` from `main.cpp`: calls `glfwDestroyWindow(window)` and nothing
else.  `glfwDestroyWindow` does not write to the `window` variable, so the
globals are unchanged; the destruction itself is the recorded event. -/
def explode (g : Globals) : Globals × List Event :=
  (g, [Event.destroyWindow])

/-- The environment of a run: whether each fallible library call succeeds,
and what the input devices report at the poll of each loop iteration
(iteration indices start at 0). -/
structure Env where
  glfwInitOk : Bool
  createWindowOk : Bool
  glewInitOk : Bool
  inputs : Nat → Input

/-- The `while (alive)` loop of `main`: each iteration calls `input_update`;
if `alive` still holds it calls `draw`, otherwise it calls `explode` and
breaks.  `fuel` bounds the number of iterations we unfold; `i` is the index
of the current iteration.  Returns the emitted events and `some` final
globals when the loop exited within `fuel` iterations, `none` otherwise. -/
def frameLoop (inputs : Nat → Input) : Nat → Nat → Globals → List Event × Option Globals
  | 0, _, _ => ([], none)
  | fuel + 1, i, g =>
    if g.alive then
      let g1 := input_update (inputs i) g
      if g1.alive then
        let rest := frameLoop inputs fuel (i + 1) (draw g1)
        (Event.inputUpdateCall :: Event.drawCall :: rest.1, rest.2)
      else
        let ex := explode g1
        (Event.inputUpdateCall :: ex.2, some ex.1)
    else
      ([], some g)

/-- The events `main` emits before testing `glfwCreateWindow`'s result:
`glewExperimental = true`, `glfwInit`, the four window hints and the
`glfwCreateWindow(1280, 720, "huskyTech2", NULL, NULL)` call. -/
def preWindowEvents : List Event :=
  [Event.setGlewExperimental, Event.glfwInitCall,
   Event.windowHint "GLFW_CONTEXT_VERSION_MAJOR" "3",
   Event.windowHint "GLFW_CONTEXT_VERSION_MINOR" "3",
   Event.windowHint "GLFW_OPENGL_FORWARD_COMPAT" "GL_TRUE",
   Event.windowHint "GLFW_OPENGL_PROFILE" "GLFW_OPENGL_CORE_PROFILE",
   Event.createWindow 1280 720 "huskyTech2"]

/-- The events between a successful window creation and the `glewInit`
test: `glfwMakeContextCurrent(window)`, `glewExperimental = true`,
`glewInit()`. -/
def preGlewEvents : List Event :=
  [Event.makeContextCurrent, Event.setGlewExperimental, Event.glewInitCall]

/-- `main` from `main.cpp`, embedded over `Env`.  Returns the event trace
and the process exit status: `some c` when the program returns with status
`c`, `none` when the frame loop did not exit within `fuel` iterations.
Falling off the end of `main` yields status 0 (C++ semantics of `main`). -/
def mainRun (env : Env) (fuel : Nat) : List Event × Option Int :=
  if env.glfwInitOk then
    if env.createWindowOk then
      let g1 : Globals := { initialGlobals with window := some 1 }
      if env.glewInitOk then
        let looped := frameLoop env.inputs fuel 0 g1
        (preWindowEvents ++ preGlewEvents ++
           [Event.setInputMode "GLFW_STICKY_KEYS" "GL_TRUE"] ++ looped.1,
         match looped.2 with
         | none => none
         | some _ => some 0)
      else
        (preWindowEvents ++ preGlewEvents ++
           [Event.printErr "FAILED TO INITIALIZE GLEW!"], some (-1))
    else
      (preWindowEvents ++
         [Event.printErr "FAILED TO OPEN GLFW WINDOW!", Event.terminate],
       some (-1))
  else
    ([Event.setGlewExperimental, Event.glfwInitCall,
      Event.printErr "FAILED TO INITIALIZE GLFW!"], some (-1))

/-- Does an event mark an attempt to create a window? -/
def Event.isCreate : Event → Bool
  | Event.createWindow _ _ _ => true
  | _ => false

/-- `true` when no `drawCall` event occurs after a `destroyWindow` event in
the trace. -/
def noDrawAfterDestroy : List Event → Bool
  | [] => true
  | Event.destroyWindow :: rest => rest.all fun e => decide (e ≠ Event.drawCall)
  | _ :: rest => noDrawAfterDestroy rest

/-! ### Basic facts about the poller and the loop -/

theorem input_update_of_pollExit {inp : Input} (g : Globals)
    (h : pollExit inp = true) :
    input_update inp g = { g with alive := false } := by
  simp [input_update, h]

theorem input_update_of_not_pollExit {inp : Input} (g : Globals)
    (h : pollExit inp = false) :
    input_update inp g = g := by
  simp [input_update, h]

theorem frameLoop_of_dead (inputs : Nat → Input) (fuel i : Nat) (g : Globals)
    (h : g.alive = false) :
    (frameLoop inputs fuel i g).1 = [] := by
  cases fuel with
  | zero => rfl
  | succ fuel => simp [frameLoop, h]

/-- The loop body never calls `glfwTerminate`. -/
theorem terminate_not_mem_frameLoop (inputs : Nat → Input) :
    ∀ (fuel i : Nat) (g : Globals),
      Event.terminate ∉ (frameLoop inputs fuel i g).1 := by
  intro fuel
  induction fuel with
  | zero => intro i g h; simp [frameLoop] at h
  | succ fuel ih =>
    intro i g h
    by_cases hg : g.alive
    · by_cases hg1 : (input_update (inputs i) g).alive
      · simp only [frameLoop, hg, if_true, hg1, List.mem_cons] at h
        rcases h with h | h | h
        · exact Event.noConfusion h
        · exact Event.noConfusion h
        · exact ih (i + 1) _ h
      · simp [frameLoop, hg, hg1, explode] at h
    · simp [frameLoop, hg] at h

/-- The loop body never emits a `drawCall` after the `destroyWindow` event. -/
theorem noDrawAfterDestroy_frameLoop (inputs : Nat → Input) :
    ∀ (fuel i : Nat) (g : Globals),
      noDrawAfterDestroy (frameLoop inputs fuel i g).1 = true := by
  intro fuel
  induction fuel with
  | zero => intro i g; rfl
  | succ fuel ih =>
    intro i g
    by_cases hg : g.alive
    · by_cases hg1 : (input_update (inputs i) g).alive
      · simpa [frameLoop, hg, hg1, noDrawAfterDestroy] using ih (i + 1) _
      · simp [frameLoop, hg, hg1, explode, noDrawAfterDestroy]
    · simp [frameLoop, hg, noDrawAfterDestroy]

theorem noDrawAfterDestroy_append (l1 l2 : List Event)
    (h : Event.destroyWindow ∉ l1) :
    noDrawAfterDestroy (l1 ++ l2) = noDrawAfterDestroy l2 := by
  induction l1 with
  | nil => rfl
  | cons a l ih =>
    have ha : ¬(a = Event.destroyWindow) := fun he => h (he ▸ List.mem_cons_self a l)
    have hl : Event.destroyWindow ∉ l := fun he => h (List.mem_cons_of_mem a he)
    simp only [List.cons_append, noDrawAfterDestroy, if_neg ha]
    exact ih hl

/-- If the loop exits and its entry state is alive, the last emitted event is
the window destruction performed by `explode`. -/
theorem frameLoop_getLast (inputs : Nat → Input) :
    ∀ (fuel i : Nat) (g g' : Globals),
      g.alive = true → (frameLoop inputs fuel i g).2 = some g' →
      (frameLoop inputs fuel i g).1.getLast? = some Event.destroyWindow := by
  intro fuel
  induction fuel with
  | zero => intro i g g' _ h2; simp [frameLoop] at h2
  | succ fuel ih =>
    intro i g g' hg h2
    by_cases hg1 : (input_update (inputs i) g).alive
    · simp only [frameLoop, hg, if_true, hg1, draw] at h2 ⊢
      have hlast := ih (i + 1) (input_update (inputs i) g) g' hg1 h2
      cases hE : (frameLoop inputs fuel (i + 1) (input_update (inputs i) g)).1 with
      | nil => rw [hE] at hlast; simp at hlast
      | cons x xs =>
        rw [hE] at hlast
        rw [List.getLast?_cons_cons, List.getLast?_cons_cons]
        exact hlast
    · simp [frameLoop, hg, hg1, explode]

/-- If the loop never observes the exit condition, it never exits: every
fuel bound is exhausted. -/
theorem frameLoop_diverges (inputs : Nat → Input)
    (hnever : ∀ n, pollExit (inputs n) = false) :
    ∀ (fuel i : Nat) (g : Globals), g.alive = true →
      (frameLoop inputs fuel i g).2 = none := by
  intro fuel
  induction fuel with
  | zero => intro i g _; rfl
  | succ fuel ih =>
    intro i g hg
    have h1 : input_update (inputs i) g = g :=
      input_update_of_not_pollExit g (hnever i)
    simp [frameLoop, hg, h1, draw, ih (i + 1) g hg]

/-- If some reachable poll observes the exit condition, the loop exits
within that many iterations of fuel. -/
theorem frameLoop_exits (inputs : Nat → Input) :
    ∀ (m fuel i : Nat) (g : Globals), g.alive = true → m < fuel →
      pollExit (inputs (i + m)) = true →
      (frameLoop inputs fuel i g).2 ≠ none := by
  intro m
  induction m with
  | zero =>
    intro fuel i g hg hfuel hp
    cases fuel with
    | zero => omega
    | succ fuel =>
      have h1 : input_update (inputs i) g = { g with alive := false } :=
        input_update_of_pollExit g (by simpa using hp)
      simp [frameLoop, hg, h1, explode]
  | succ m ih =>
    intro fuel i g hg hfuel hp
    cases fuel with
    | zero => omega
    | succ fuel =>
      by_cases hp0 : pollExit (inputs i) = true
      · have h1 : input_update (inputs i) g = { g with alive := false } :=
          input_update_of_pollExit g hp0
        simp [frameLoop, hg, h1, explode]
      · have h1 : input_update (inputs i) g = g :=
          input_update_of_not_pollExit g (by simpa using hp0)
        have hrec := ih fuel (i + 1) g hg (by omega)
          (by have : i + 1 + m = i + (m + 1) := by omega
              rw [this]; exact hp)
        simp [frameLoop, hg, h1, draw, hrec]

/-- The exact event trace of a loop run whose poll first observes the exit
condition after `m` full frames: `m` iterations of poll-then-draw, then one
poll that clears `alive`, followed by the window destruction of `explode`. -/
def runEvents : Nat → List Event
  | 0 => [Event.inputUpdateCall, Event.destroyWindow]
  | m + 1 => Event.inputUpdateCall :: Event.drawCall :: runEvents m

theorem runEvents_count_draw : ∀ m : Nat, (runEvents m).count Event.drawCall = m := by
  intro m
  induction m with
  | zero => rfl
  | succ m ih => simp [runEvents, ih]

theorem runEvents_getLast : ∀ m : Nat, (runEvents m).getLast? = some Event.destroyWindow := by
  intro m
  induction m with
  | zero => rfl
  | succ m ih =>
    cases hE : runEvents m with
    | nil => cases m <;> simp [runEvents] at hE
    | cons x xs =>
      rw [hE] at ih
      rw [runEvents, hE, List.getLast?_cons_cons, List.getLast?_cons_cons]
      exact ih

/-- Closed form of a loop run whose exit condition first holds at the poll
of iteration `i + m`: the loop runs `m` full frames, then tears down; the
final globals are the entry globals with `alive` cleared. -/
theorem frameLoop_first_exit (inputs : Nat → Input) :
    ∀ (m fuel i : Nat) (g : Globals), g.alive = true → m < fuel →
      (∀ j, j < m → pollExit (inputs (i + j)) = false) →
      pollExit (inputs (i + m)) = true →
      frameLoop inputs fuel i g = (runEvents m, some { g with alive := false }) := by
  intro m
  induction m with
  | zero =>
    intro fuel i g hg hfuel hbefore hat
    cases fuel with
    | zero => omega
    | succ fuel =>
      have h1 : input_update (inputs i) g = { g with alive := false } :=
        input_update_of_pollExit g (by simpa using hat)
      simp [frameLoop, hg, h1, explode, runEvents]
  | succ m ih =>
    intro fuel i g hg hfuel hbefore hat
    cases fuel with
    | zero => omega
    | succ fuel =>
      have h0 : pollExit (inputs i) = false := by simpa using hbefore 0 (by omega)
      have h1 : input_update (inputs i) g = g := input_update_of_not_pollExit g h0
      have hrec := ih fuel (i + 1) g hg (by omega)
        (by intro j hj
            have : i + 1 + j = i + (j + 1) := by omega
            rw [this]; exact hbefore (j + 1) (by omega))
        (by have : i + 1 + m = i + (m + 1) := by omega
            rw [this]; exact hat)
      simp [frameLoop, hg, h1, draw, hrec, runEvents]

/-! ### Claims -/

/-- Claim C1, counterexample: the claim says `glfwTerminate` is called
exactly once on every exit path.  Here is a normal user-initiated exit
(all initialization succeeds, Escape pressed at the first poll): the
process exits with status 0, destroys the window, and `glfwTerminate` is
called zero times. -/
theorem c1_counterexample :
    (mainRun (Env.mk true true true fun _ => (true, false)) 1).2 = some 0 ∧
    Event.destroyWindow ∈ (mainRun (Env.mk true true true fun _ => (true, false)) 1).1 ∧
    (mainRun (Env.mk true true true fun _ => (true, false)) 1).1.count Event.terminate = 0 := by
  refine ⟨by decide, by decide, by decide⟩

/-- Claim C1, amended: on an exiting run, `glfwTerminate` is called exactly
once when window creation fails (after successful library initialization)
and never on any other exit path; on the normal exit (status 0) the last
observable action is the window destruction, with no `glfwTerminate` after
it. -/
theorem c1_theorem (env : Env) (fuel : Nat) (c : Int)
    (h : (mainRun env fuel).2 = some c) :
    (mainRun env fuel).1.count Event.terminate =
      (if env.glfwInitOk = true ∧ env.createWindowOk = false then 1 else 0) ∧
    (c = 0 → (mainRun env fuel).1.getLast? = some Event.destroyWindow) := by
  cases hgi : env.glfwInitOk with
  | false =>
    have hrun : mainRun env fuel =
        ([Event.setGlewExperimental, Event.glfwInitCall,
          Event.printErr "FAILED TO INITIALIZE GLFW!"], some (-1)) := by
      simp [mainRun, hgi]
    rw [hrun] at h ⊢
    have hc : c = -1 := by simpa using h.symm
    refine ⟨by simp [hgi], fun hc0 => absurd (hc0 ▸ hc) (by decide)⟩
  | true =>
    cases hcw : env.createWindowOk with
    | false =>
      have hrun : mainRun env fuel =
          (preWindowEvents ++
            [Event.printErr "FAILED TO OPEN GLFW WINDOW!", Event.terminate],
           some (-1)) := by
        simp [mainRun, hgi, hcw]
      rw [hrun] at h ⊢
      have hc : c = -1 := by simpa using h.symm
      refine ⟨by simp [hgi, hcw]; decide, fun hc0 => absurd (hc0 ▸ hc) (by decide)⟩
    | true =>
      cases hgl : env.glewInitOk with
      | false =>
        have hrun : mainRun env fuel =
            (preWindowEvents ++ preGlewEvents ++
              [Event.printErr "FAILED TO INITIALIZE GLEW!"], some (-1)) := by
          simp [mainRun, hgi, hcw, hgl]
        rw [hrun] at h ⊢
        have hc : c = -1 := by simpa using h.symm
        refine ⟨by simp [hcw]; decide, fun hc0 => absurd (hc0 ▸ hc) (by decide)⟩
      | true =>
        simp only [mainRun, hgi, hcw, hgl, if_true] at h ⊢
        cases hl : (frameLoop env.inputs fuel 0 { initialGlobals with window := some 1 }).2 with
        | none => rw [hl] at h; simp at h
        | some g' =>
          constructor
          · rw [List.count_append]
            have h0 : Event.terminate ∉
                (frameLoop env.inputs fuel 0 { initialGlobals with window := some 1 }).1 :=
              terminate_not_mem_frameLoop env.inputs fuel 0 _
            rw [List.count_eq_zero.mpr h0]
            simp [hcw]
            decide
          · intro _
            have hlast := frameLoop_getLast env.inputs fuel 0
              { initialGlobals with window := some 1 } g' rfl hl
            rw [List.getLast?_append, hlast]
            rfl

/-- Claim C1, witness: the amended theorem applied to the normal exit run
(Escape at the first poll). -/
theorem c1_theorem_witness :
    (mainRun (Env.mk true true true fun _ => (true, false)) 1).1.count Event.terminate =
      (if (Env.mk true true true fun _ => (true, false)).glfwInitOk = true ∧
          (Env.mk true true true fun _ => (true, false)).createWindowOk = false
       then 1 else 0) ∧
    ((0 : Int) = 0 →
      (mainRun (Env.mk true true true fun _ => (true, false)) 1).1.getLast? =
        some Event.destroyWindow) :=
  c1_theorem (Env.mk true true true fun _ => (true, false)) 1 0 (by decide)

/-- Claim C2: once the alive flag is false, the loop executes no further
frame at all (it emits no events and exits immediately), and in every loop
trace and every full-program trace no `drawCall` occurs after the
`destroyWindow` teardown event, which the loop emits at the very moment
`alive` becomes false. -/
theorem c2_theorem (inputs : Nat → Input) (fuel i : Nat) (g : Globals)
    (env : Env) (fuel2 : Nat) :
    (g.alive = false → (frameLoop inputs fuel i g).1 = []) ∧
    noDrawAfterDestroy (frameLoop inputs fuel i g).1 = true ∧
    noDrawAfterDestroy (mainRun env fuel2).1 = true := by
  refine ⟨frameLoop_of_dead inputs fuel i g,
    noDrawAfterDestroy_frameLoop inputs fuel i g, ?_⟩
  cases hgi : env.glfwInitOk with
  | false =>
    have hrun : (mainRun env fuel2).1 =
        [Event.setGlewExperimental, Event.glfwInitCall,
         Event.printErr "FAILED TO INITIALIZE GLFW!"] := by
      simp [mainRun, hgi]
    rw [hrun]; decide
  | true =>
    cases hcw : env.createWindowOk with
    | false =>
      have hrun : (mainRun env fuel2).1 =
          preWindowEvents ++
            [Event.printErr "FAILED TO OPEN GLFW WINDOW!", Event.terminate] := by
        simp [mainRun, hgi, hcw]
      rw [hrun]; decide
    | true =>
      cases hgl : env.glewInitOk with
      | false =>
        have hrun : (mainRun env fuel2).1 =
            preWindowEvents ++ preGlewEvents ++
              [Event.printErr "FAILED TO INITIALIZE GLEW!"] := by
          simp [mainRun, hgi, hcw, hgl]
        rw [hrun]; decide
      | true =>
        simp only [mainRun, hgi, hcw, hgl, if_true]
        rw [noDrawAfterDestroy_append _ _ (by decide)]
        exact noDrawAfterDestroy_frameLoop env.inputs fuel2 0 _

/-- Claim C2, witness: the theorem applied to a dead starting state and to
a normal exit run. -/
theorem c2_theorem_witness :
    (frameLoop (fun _ => ((false : Bool), (false : Bool))) 3 0 ⟨false, none⟩).1 = [] ∧
    noDrawAfterDestroy (frameLoop (fun _ => ((false : Bool), (false : Bool))) 3 0 ⟨false, none⟩).1 = true ∧
    noDrawAfterDestroy (mainRun (Env.mk true true true fun _ => (true, false)) 2).1 = true := by
  obtain ⟨ha, hb, hc⟩ := c2_theorem (fun _ => (false, false)) 3 0 ⟨false, none⟩
    (Env.mk true true true fun _ => (true, false)) 2
  exact ⟨ha rfl, hb, hc⟩

/-- Claim C3: in a run where all initialization succeeds and the exit
condition first holds at the poll of iteration `n` (1-indexed, `n ≥ 1`,
with enough fuel), the render hook is called exactly `n - 1` times, the
last observable action is the window destruction, and the process exits
with status 0.  In particular a window-close signal on iteration 1 yields
zero draw calls and an Escape press on iteration 5 yields exactly 4. -/
theorem c3_theorem (env : Env) (fuel n : Nat)
    (hgi : env.glfwInitOk = true) (hcw : env.createWindowOk = true)
    (hgl : env.glewInitOk = true) (hn : 1 ≤ n) (hfuel : n ≤ fuel)
    (hbefore : ∀ j, j < n - 1 → pollExit (env.inputs j) = false)
    (hat : pollExit (env.inputs (n - 1)) = true) :
    (mainRun env fuel).1.count Event.drawCall = n - 1 ∧
    (mainRun env fuel).1.getLast? = some Event.destroyWindow ∧
    (mainRun env fuel).2 = some 0 := by
  have hloop := frameLoop_first_exit env.inputs (n - 1) fuel 0
    { initialGlobals with window := some 1 } rfl (by omega)
    (by intro j hj; simpa using hbefore j hj)
    (by simpa using hat)
  simp only [mainRun, hgi, hcw, hgl, if_true, hloop]
  refine ⟨?_, ?_, by trivial⟩
  · rw [List.count_append, runEvents_count_draw]
    have h0 : (preWindowEvents ++ preGlewEvents ++
        [Event.setInputMode "GLFW_STICKY_KEYS" "GL_TRUE"]).count Event.drawCall = 0 := by
      decide
    rw [h0]
    omega
  · rw [List.getLast?_append, runEvents_getLast]
    rfl

/-- Claim C3, witness: Escape first pressed at the poll of iteration 5
yields exactly 4 render-hook calls, teardown, and exit status 0. -/
theorem c3_theorem_witness :
    (mainRun (Env.mk true true true fun k => (k == 4, false)) 10).1.count Event.drawCall = 5 - 1 ∧
    (mainRun (Env.mk true true true fun k => (k == 4, false)) 10).1.getLast? =
      some Event.destroyWindow ∧
    (mainRun (Env.mk true true true fun k => (k == 4, false)) 10).2 = some 0 :=
  c3_theorem (Env.mk true true true fun k => (k == 4, false)) 10 5
    rfl rfl rfl (by omega) (by omega) (by decide) (by decide)

/-- If the loop exits with the alive flag cleared, then either it was
already cleared at entry or some reachable poll observed the exit
condition: no loop code other than `input_update` clears it. -/
theorem frameLoop_alive_flip (inputs : Nat → Input) :
    ∀ (fuel i : Nat) (g g' : Globals),
      (frameLoop inputs fuel i g).2 = some g' → g'.alive = false →
      g.alive = false ∨ ∃ k, pollExit (inputs (i + k)) = true := by
  intro fuel
  induction fuel with
  | zero => intro i g g' h _; simp [frameLoop] at h
  | succ fuel ih =>
    intro i g g' h hdead
    by_cases hg : g.alive = true
    · by_cases hp : pollExit (inputs i) = true
      · exact Or.inr ⟨0, by simpa using hp⟩
      · have h1 : input_update (inputs i) g = g :=
          input_update_of_not_pollExit g (by simpa using hp)
        simp only [frameLoop, hg, if_true, h1, draw] at h
        rcases ih (i + 1) g g' h hdead with hfalse | ⟨k, hk⟩
        · rw [hg] at hfalse; exact absurd hfalse (by decide)
        · refine Or.inr ⟨k + 1, ?_⟩
          have : i + (k + 1) = i + 1 + k := by omega
          rw [this]; exact hk
    · exact Or.inl (by simpa using hg)

/-- Claim C4: the poller clears the alive flag exactly when the exit
condition (Escape press or window-close signal) holds — the new flag is
the old one conjoined with the negated exit condition — and nothing else
flips the flag: whenever a loop run ends with the flag cleared, either it
started cleared or some poll observed the exit condition. -/
theorem c4_theorem (inp : Input) (g : Globals) (inputs : Nat → Input)
    (fuel i : Nat) (g' : Globals) :
    (input_update inp g).alive = (g.alive && !pollExit inp) ∧
    ((frameLoop inputs fuel i g).2 = some g' → g'.alive = false →
      g.alive = false ∨ ∃ k, pollExit (inputs (i + k)) = true) := by
  constructor
  · by_cases hp : pollExit inp = true <;> simp [input_update, hp]
  · exact frameLoop_alive_flip inputs fuel i g g'

/-- Claim C4, witness: the theorem applied to an Escape press on a live
state, with a one-iteration loop run that exits dead. -/
theorem c4_theorem_witness :
    (input_update (true, false) ⟨true, none⟩).alive =
      ((⟨true, none⟩ : Globals).alive && !pollExit (true, false)) ∧
    ((⟨true, none⟩ : Globals).alive = false ∨
      ∃ k, pollExit ((fun _ => ((true : Bool), (false : Bool))) (0 + k)) = true) := by
  obtain ⟨h1, h2⟩ := c4_theorem (true, false) ⟨true, none⟩
    (fun _ => (true, false)) 1 0 ⟨false, none⟩
  exact ⟨h1, h2 (by decide) rfl⟩

/-- Claim C5: whenever the process exits, its status is 0 exactly on a
normal user-initiated exit (all three initialization steps succeeded and
the loop exited) and -1 exactly when library initialization, window
creation or GL loader initialization failed. -/
theorem c5_theorem (env : Env) (fuel : Nat) (c : Int)
    (h : (mainRun env fuel).2 = some c) :
    (c = 0 ↔ env.glfwInitOk = true ∧ env.createWindowOk = true ∧ env.glewInitOk = true) ∧
    (c = -1 ↔ ¬(env.glfwInitOk = true ∧ env.createWindowOk = true ∧ env.glewInitOk = true)) := by
  cases hgi : env.glfwInitOk with
  | false =>
    have hc : c = -1 := by
      have := h.symm.trans (by simp [mainRun, hgi] : (mainRun env fuel).2 = some (-1))
      simpa using this
    subst hc
    constructor
    · simp [hgi]
    · simp [hgi]
  | true =>
    cases hcw : env.createWindowOk with
    | false =>
      have hc : c = -1 := by
        have := h.symm.trans (by simp [mainRun, hgi, hcw] : (mainRun env fuel).2 = some (-1))
        simpa using this
      subst hc
      constructor
      · simp [hcw]
      · simp [hgi, hcw]
    | true =>
      cases hgl : env.glewInitOk with
      | false =>
        have hc : c = -1 := by
          have := h.symm.trans
            (by simp [mainRun, hgi, hcw, hgl] : (mainRun env fuel).2 = some (-1))
          simpa using this
        subst hc
        constructor
        · simp [hgl]
        · simp [hgi, hcw, hgl]
      | true =>
        simp only [mainRun, hgi, hcw, hgl, if_true] at h
        cases hl : (frameLoop env.inputs fuel 0 { initialGlobals with window := some 1 }).2 with
        | none => rw [hl] at h; simp at h
        | some g' =>
          rw [hl] at h
          have hc : c = 0 := by simpa using h.symm
          subst hc
          constructor
          · simp [hgi, hcw, hgl]
          · simp [hgi, hcw, hgl]

/-- Claim C5, witness: the theorem applied to a run whose window creation
fails, which exits with status -1. -/
theorem c5_theorem_witness :
    ((-1 : Int) = 0 ↔ (Env.mk true false true fun _ => (false, false)).glfwInitOk = true ∧
      (Env.mk true false true fun _ => (false, false)).createWindowOk = true ∧
      (Env.mk true false true fun _ => (false, false)).glewInitOk = true) ∧
    ((-1 : Int) = -1 ↔ ¬((Env.mk true false true fun _ => (false, false)).glfwInitOk = true ∧
      (Env.mk true false true fun _ => (false, false)).createWindowOk = true ∧
      (Env.mk true false true fun _ => (false, false)).glewInitOk = true)) :=
  c5_theorem (Env.mk true false true fun _ => (false, false)) 0 (-1) (by decide)

/-- Claim C6: if library initialization fails, the process exits with a
non-zero status (-1) and never attempts window creation: no
`createWindow` event appears in its trace. -/
theorem c6_theorem (env : Env) (fuel : Nat) (h : env.glfwInitOk = false) :
    (∃ c, (mainRun env fuel).2 = some c ∧ c ≠ 0) ∧
    (mainRun env fuel).1.all (fun e => ! Event.isCreate e) = true := by
  have hrun : mainRun env fuel =
      ([Event.setGlewExperimental, Event.glfwInitCall,
        Event.printErr "FAILED TO INITIALIZE GLFW!"], some (-1)) := by
    simp [mainRun, h]
  rw [hrun]
  exact ⟨⟨-1, rfl, by decide⟩, by decide⟩

/-- Claim C6, witness: the theorem applied to a run whose library
initialization fails. -/
theorem c6_theorem_witness :
    (∃ c, (mainRun (Env.mk false true true fun _ => (false, false)) 0).2 = some c ∧ c ≠ 0) ∧
    (mainRun (Env.mk false true true fun _ => (false, false)) 0).1.all
      (fun e => ! Event.isCreate e) = true :=
  c6_theorem (Env.mk false true true fun _ => (false, false)) 0 rfl

/-- Claim C7: if window creation fails after successful library
initialization, the process calls `glfwTerminate` and exits with
status -1. -/
theorem c7_theorem (env : Env) (fuel : Nat)
    (h1 : env.glfwInitOk = true) (h2 : env.createWindowOk = false) :
    (mainRun env fuel).2 = some (-1) ∧ Event.terminate ∈ (mainRun env fuel).1 := by
  have hrun : mainRun env fuel =
      (preWindowEvents ++
        [Event.printErr "FAILED TO OPEN GLFW WINDOW!", Event.terminate],
       some (-1)) := by
    simp [mainRun, h1, h2]
  rw [hrun]
  exact ⟨rfl, by decide⟩

/-- Claim C7, witness: the theorem applied to a run whose window creation
fails. -/
theorem c7_theorem_witness :
    (mainRun (Env.mk true false true fun _ => (false, false)) 0).2 = some (-1) ∧
    Event.terminate ∈ (mainRun (Env.mk true false true fun _ => (false, false)) 0).1 :=
  c7_theorem (Env.mk true false true fun _ => (false, false)) 0 rfl rfl

/-- Claim C8: if GL loader initialization fails after successful library
initialization and window creation, the process reports the failure to
standard error and exits with status -1 without ever entering the frame
loop, and neither destroys the window nor shuts down the subsystem on
that path. -/
theorem c8_theorem (env : Env) (fuel : Nat)
    (h1 : env.glfwInitOk = true) (h2 : env.createWindowOk = true)
    (h3 : env.glewInitOk = false) :
    (mainRun env fuel).2 = some (-1) ∧
    Event.printErr "FAILED TO INITIALIZE GLEW!" ∈ (mainRun env fuel).1 ∧
    Event.inputUpdateCall ∉ (mainRun env fuel).1 ∧
    Event.drawCall ∉ (mainRun env fuel).1 ∧
    Event.destroyWindow ∉ (mainRun env fuel).1 ∧
    Event.terminate ∉ (mainRun env fuel).1 := by
  have hrun : mainRun env fuel =
      (preWindowEvents ++ preGlewEvents ++
        [Event.printErr "FAILED TO INITIALIZE GLEW!"], some (-1)) := by
    simp [mainRun, h1, h2, h3]
  rw [hrun]
  refine ⟨rfl, by decide, by decide, by decide, by decide, by decide⟩

/-- Claim C8, witness: the theorem applied to a run whose GL loader
initialization fails. -/
theorem c8_theorem_witness :
    (mainRun (Env.mk true true false fun _ => (false, false)) 0).2 = some (-1) ∧
    Event.printErr "FAILED TO INITIALIZE GLEW!" ∈
      (mainRun (Env.mk true true false fun _ => (false, false)) 0).1 ∧
    Event.inputUpdateCall ∉ (mainRun (Env.mk true true false fun _ => (false, false)) 0).1 ∧
    Event.drawCall ∉ (mainRun (Env.mk true true false fun _ => (false, false)) 0).1 ∧
    Event.destroyWindow ∉ (mainRun (Env.mk true true false fun _ => (false, false)) 0).1 ∧
    Event.terminate ∉ (mainRun (Env.mk true true false fun _ => (false, false)) 0).1 :=
  c8_theorem (Env.mk true true false fun _ => (false, false)) 0 rfl rfl rfl

/-- Claim C9: `input_update` mutates nothing but the alive flag — the
window handle is unchanged by every call — and it only ever changes the
flag from true to false (if the flag is true afterwards, it was true
before). -/
theorem c9_theorem (inp : Input) (g : Globals) :
    (input_update inp g).window = g.window ∧
    ((input_update inp g).alive = true → g.alive = true) := by
  by_cases hp : pollExit inp = true <;> simp [input_update, hp]

/-- Claim C9, witness: the theorem applied to a quiet poll on a live state
with a concrete window handle. -/
theorem c9_theorem_witness :
    (input_update (false, false) ⟨true, some 7⟩).window = some 7 ∧
    (⟨true, some 7⟩ : Globals).alive = true := by
  obtain ⟨h1, h2⟩ := c9_theorem (false, false) ⟨true, some 7⟩
  exact ⟨h1, h2 rfl⟩

/-- Claim C10: starting from a live state, the frame loop exits within
some fuel bound if and only if some poll of the input trace observes the
exit condition; if no poll ever observes it, every fuel bound is
exhausted and — in a fully initialized run — `main` never returns. -/
theorem c10_theorem (inputs : Nat → Input) (g : Globals)
    (h : g.alive = true) (env : Env) :
    ((∃ fuel, (frameLoop inputs fuel 0 g).2 ≠ none) ↔
      (∃ n, pollExit (inputs n) = true)) ∧
    ((∀ n, pollExit (inputs n) = false) →
      ∀ fuel, (frameLoop inputs fuel 0 g).2 = none) ∧
    (env.glfwInitOk = true → env.createWindowOk = true → env.glewInitOk = true →
      (∀ n, pollExit (env.inputs n) = false) → ∀ fuel, (mainRun env fuel).2 = none) := by
  refine ⟨⟨?_, ?_⟩, ?_, ?_⟩
  · rintro ⟨fuel, hfuel⟩
    by_contra hno
    push_neg at hno
    simp only [Bool.not_eq_true] at hno
    exact hfuel (frameLoop_diverges inputs hno fuel 0 g h)
  · rintro ⟨n, hn⟩
    exact ⟨n + 1, frameLoop_exits inputs n (n + 1) 0 g h (by omega) (by simpa using hn)⟩
  · intro hall fuel
    exact frameLoop_diverges inputs hall fuel 0 g h
  · intro h1 h2 h3 hall fuel
    have hdiv := frameLoop_diverges env.inputs hall fuel 0
      { initialGlobals with window := some 1 } rfl
    simp [mainRun, h1, h2, h3, hdiv]

/-- Claim C10, witness: with Escape pressed at the very first poll, the
loop exits within some fuel bound. -/
theorem c10_theorem_witness :
    ∃ fuel, (frameLoop (fun _ => ((true : Bool), (false : Bool))) fuel 0 ⟨true, none⟩).2 ≠ none := by
  obtain ⟨hiff, _, _⟩ := c10_theorem (fun _ => (true, false)) ⟨true, none⟩ rfl
    (Env.mk true true true fun _ => (true, false))
  exact hiff.mpr ⟨0, rfl⟩
